import Mathlib

/-!
Shallow embedding of `custom_components/hass_agent/media_player.py`
(class `HassAgentMediaPlayerDevice`): the device mirror record, the MQTT
snapshot handler `updated`, the derived properties (`state`, `available`,
`volume_level`), and the command dispatch methods, together with theorems
about the spec's claims on them.

Modelling conventions:
  * JSON numbers and wall-clock instants are `ℚ` (Python floats), wire
    volumes are `ℤ` (JSON integers).
  * A JSON object field that may be absent is an outer `Option`; a field
    whose value may be JSON `null` is an inner `Option String`.
  * Python exception flow in `updated` is explicit: the handler result
    carries the object state at the point the exception escaped (Python
    keeps attribute assignments made before a `KeyError`), a `raised`
    flag, the list of MQTT publishes and the number of
    `async_write_ha_state` (host change-notification hook) invocations.
-/

namespace HassAgent

/-- Python `str.lower()`, applied characterwise. -/
def lower (s : String) : String := ⟨s.data.map Char.toLower⟩

/-- Python 3 `round()` to an integer: round half to even (banker's rounding). -/
def pyRound (q : ℚ) : ℤ :=
  if q - ⌊q⌋ < 1/2 then ⌊q⌋
  else if 1/2 < q - ⌊q⌋ then ⌊q⌋ + 1
  else if ⌊q⌋ % 2 = 0 then ⌊q⌋ else ⌊q⌋ + 1

/-- Python truthiness of a string-or-`None` value (`None` and `""` are falsy). -/
def pyTruthyStr : Option String → Bool
  | none => false
  | some s => s ≠ ""

/-- Python `s.startswith(pre)`. -/
def startswith (s pre : String) : Bool := pre.data.isPrefixOf s.data

/-- Decoded JSON body of a state-topic message.  Each required key is an
outer `Option` (`none` = key absent, so the subscript raises `KeyError`);
the four track-identity values may themselves be JSON `null`. -/
structure Payload where
  state : Option String
  volume : Option ℤ
  muted : Option Bool
  title : Option (Option String)
  artist : Option (Option String)
  albumtitle : Option (Option String)
  albumartist : Option (Option String)
  duration : Option ℚ
  currentposition : Option ℚ
deriving DecidableEq

/-- A payload carrying every field of the documented wire format. -/
def mkPayload (st : String) (v : ℤ) (m : Bool) (ti ar abt aba : Option String)
    (du cp : ℚ) : Payload :=
  ⟨some st, some v, some m, some ti, some ar, some abt, some aba, some du, some cp⟩

/-- The externally visible play state (Home Assistant `MediaPlayerState`
values used by this integration). -/
inductive MediaPlayerState where
  | off
  | idle
  | playing
  | paused
  | standby
  | buffering
deriving DecidableEq

/-- The wire value of the `MediaPlayerState` string enum (what an
assignment `self._state = MediaPlayerState.IDLE` stores). -/
def MediaPlayerState.val : MediaPlayerState → String
  | .off => "off"
  | .idle => "idle"
  | .playing => "playing"
  | .paused => "paused"
  | .standby => "standby"
  | .buffering => "buffering"

/-- The mutable attributes of `HassAgentMediaPlayerDevice` touched by the
snapshot handler, the command methods and the derived properties. -/
structure DeviceState where
  _state : Option String
  _volume_level : ℤ
  _muted : Bool
  _available : Bool
  _attr_media_title : Option String
  _attr_media_artist : Option String
  _attr_media_album_name : Option String
  _attr_media_album_artist : Option String
  _attr_media_duration : Option ℚ
  _attr_media_position : Option ℚ
  _attr_media_position_updated_at : Option ℚ
  _attr_media_image_url : Option String
  _last_updated : ℚ
  _media_id : String
deriving DecidableEq

/-- The attribute values set in `__init__` (inherited `_attr_media_*`
attributes default to `None` in the base entity class). -/
def init : DeviceState :=
  { _state := some ""
    _volume_level := 0
    _muted := false
    _available := false
    _attr_media_title := none
    _attr_media_artist := none
    _attr_media_album_name := none
    _attr_media_album_artist := none
    _attr_media_duration := none
    _attr_media_position := none
    _attr_media_position_updated_at := none
    _attr_media_image_url := none
    _last_updated := 0
    _media_id := "" }

/-- Payload of the `seek`/`setvolume` commands is a number, of `playmedia`
a string media id. -/
inductive CmdData where
  | num (q : ℚ)
  | str (s : String)
deriving DecidableEq

/-- The `info` object sent with `playmedia`. -/
structure PlayInfo where
  title : Option String
  artist : Option String
  albumtitle : Option String
  albumartist : Option String
  image_url : Option String
deriving DecidableEq

/-- Outbound command envelope `{"command": ..., "data": ..., "info": ...}`
published to the single command topic. -/
structure CommandMsg where
  command : String
  data : Option CmdData
  info : Option PlayInfo
deriving DecidableEq

/-- Source `_send_command(command, data=None, info=None)`: builds one envelope. -/
def send_command (command : String) (data : Option CmdData) (info : Option PlayInfo) :
    CommandMsg :=
  ⟨command, data, info⟩

/-- The command topic derived from the device display name. -/
def command_topic (deviceName : String) : String :=
  "hass.agent/media_player/" ++ deviceName ++ "/cmd"

/-- Result of one handler or command method: the object state afterwards
(also on an escaped exception), the publishes it made, the number of
`async_write_ha_state` calls, and whether an exception escaped. -/
structure OpResult where
  mirror : DeviceState
  published : List CommandMsg
  haWrites : ℕ
  raised : Bool
deriving DecidableEq

/-- Lines 105–110 of `updated`: the unconditional
`_attr_media_duration`/`_attr_media_position` update with the
`utcnow()` position stamp, then the final `_last_updated = time.time()`
and the `async_write_ha_state()` call.  A missing `duration` or
`currentposition` key raises `KeyError` before the later assignments. -/
def updatedTail (payload : Payload) (nowUtc nowTime : ℚ) (d : DeviceState) : OpResult :=
  match payload.duration with
  | none => ⟨d, [], 0, true⟩
  | some du =>
    match payload.currentposition with
    | none => ⟨{ d with _attr_media_duration := some du }, [], 0, true⟩
    | some cp =>
      ⟨{ d with _attr_media_duration := some du,
                _attr_media_position := some cp,
                _attr_media_position_updated_at := some nowUtc,
                _last_updated := nowTime }, [], 1, false⟩

/-- Method `HassAgentMediaPlayerDevice.updated` (lines 89–110): `json.loads`
(`none` = unparseable body, raising before any mutation), then attribute
assignments in source order, each `payload[...]` subscript raising
`KeyError` when the key is absent and leaving earlier assignments
applied. -/
def updated (message : Option Payload) (nowUtc nowTime : ℚ) (d : DeviceState) : OpResult :=
  match message with
  | none => ⟨d, [], 0, true⟩
  | some payload =>
    match payload.state with
    | none => ⟨d, [], 0, true⟩
    | some st =>
      let d1 := { d with _state := some (lower st) }
      match payload.volume with
      | none => ⟨d1, [], 0, true⟩
      | some v =>
        let d2 := { d1 with _volume_level := v }
        match payload.muted with
        | none => ⟨d2, [], 0, true⟩
        | some m =>
          let d3 := { d2 with _muted := m, _available := true }
          if d3._state ≠ some "off" then
            match payload.title with
            | none => ⟨d3, [], 0, true⟩
            | some ti =>
              if pyTruthyStr ti then
                let d4 := { d3 with _attr_media_title := ti }
                match payload.artist with
                | none => ⟨d4, [], 0, true⟩
                | some ar =>
                  let d5 := { d4 with _attr_media_artist := ar }
                  match payload.albumtitle with
                  | none => ⟨d5, [], 0, true⟩
                  | some abt =>
                    let d6 := { d5 with _attr_media_album_name := abt }
                    match payload.albumartist with
                    | none => ⟨d6, [], 0, true⟩
                    | some aba =>
                      updatedTail payload nowUtc nowTime
                        { d6 with _attr_media_album_artist := aba }
              else
                updatedTail payload nowUtc nowTime d3
          else
            ⟨{ d3 with _last_updated := nowTime }, [], 1, false⟩

/-- The `state` property (lines 170–186): `None` maps to `OFF`, the five
recognised strings to their enum values, and anything else to the `IDLE`
fallback. -/
def state (d : DeviceState) : MediaPlayerState :=
  match d._state with
  | none => MediaPlayerState.off
  | some s =>
    if s = "idle" then MediaPlayerState.idle
    else if s = "playing" then MediaPlayerState.playing
    else if s = "paused" then MediaPlayerState.paused
    else if s = "standby" then MediaPlayerState.standby
    else if s = "buffering" then MediaPlayerState.buffering
    else MediaPlayerState.idle

/-- The `available` property (lines 188–193): `round(time.time() -
self._last_updated) < 5`. -/
def available (now : ℚ) (d : DeviceState) : Bool :=
  decide (pyRound (now - d._last_updated) < 5)

/-- The `volume_level` property (lines 195–198): `self._volume_level / 100.0`. -/
def volume_level (d : DeviceState) : ℚ :=
  (d._volume_level : ℚ) / 100

/-- The `is_volume_muted` property. -/
def is_volume_muted (d : DeviceState) : Bool := d._muted

/-- Method `async_turn_off` (lines 230–233): optimistic `_state = IDLE`, then one
`"pause"` command. -/
def async_turn_off (d : DeviceState) : OpResult :=
  ⟨{ d with _state := some MediaPlayerState.idle.val },
   [send_command "pause" none none], 0, false⟩

/-- Method `async_media_seek` (lines 235–238): optimistic position and `utcnow()`
stamp, then one `"seek"` command carrying the position. -/
def async_media_seek (position : ℚ) (nowUtc : ℚ) (d : DeviceState) : OpResult :=
  ⟨{ d with _attr_media_position := some position,
            _attr_media_position_updated_at := some nowUtc },
   [send_command "seek" (some (CmdData.num position)) none], 0, false⟩

/-- Method `async_set_volume_level` (lines 200–203): `round(volume * 100)` then one
`"setvolume"` command; the stored `_volume_level` is not mutated. -/
def async_set_volume_level (volume : ℚ) (d : DeviceState) : OpResult :=
  ⟨d, [send_command "setvolume" (some (CmdData.num (pyRound (volume * 100) : ℤ))) none],
   0, false⟩

/-- Method `async_volume_up` (lines 240–242). -/
def async_volume_up (d : DeviceState) : OpResult :=
  ⟨d, [send_command "volumeup" none none], 0, false⟩

/-- Method `async_volume_down` (lines 244–246). -/
def async_volume_down (d : DeviceState) : OpResult :=
  ⟨d, [send_command "volumedown" none none], 0, false⟩

/-- Method `async_mute_volume` (lines 248–250): the `"mute"` command is sent
unconditionally, whatever the requested mute flag. -/
def async_mute_volume (_mute : Bool) (d : DeviceState) : OpResult :=
  ⟨d, [send_command "mute" none none], 0, false⟩

/-- Method `async_media_play` (lines 252–255): optimistic `_state = PLAYING`, then
one `"play"` command. -/
def async_media_play (d : DeviceState) : OpResult :=
  ⟨{ d with _state := some MediaPlayerState.playing.val },
   [send_command "play" none none], 0, false⟩

/-- Method `async_media_pause` (lines 257–260): optimistic `_state = PAUSED`, then
one `"pause"` command. -/
def async_media_pause (d : DeviceState) : OpResult :=
  ⟨{ d with _state := some MediaPlayerState.paused.val },
   [send_command "pause" none none], 0, false⟩

/-- Method `async_media_stop` (lines 262–265): optimistic `_state = IDLE`, then one
`"pause"` command (the preserved stop-as-pause quirk). -/
def async_media_stop (d : DeviceState) : OpResult :=
  ⟨{ d with _state := some MediaPlayerState.idle.val },
   [send_command "pause" none none], 0, false⟩

/-- Method `async_media_next_track` (lines 267–269). -/
def async_media_next_track (d : DeviceState) : OpResult :=
  ⟨d, [send_command "next" none none], 0, false⟩

/-- Method `async_media_previous_track` (lines 271–273). -/
def async_media_previous_track (d : DeviceState) : OpResult :=
  ⟨d, [send_command "previous" none none], 0, false⟩

/-- One image object of the `metadata["images"]` list in `play_media`
extras. -/
structure MediaImage where
  url : Option String
deriving DecidableEq

/-- The `metadata` object of the `play_media` extras, with every key
optional and `imageUrl` possibly `null`. -/
structure MediaMetadata where
  title : Option String
  artist : Option String
  album_name : Option String
  albumtitle : Option String
  album_artist : Option String
  albumartist : Option String
  imageUrl : Option String
  images : Option (List MediaImage)
deriving DecidableEq

/-- The `kwargs[ATTR_MEDIA_EXTRA]` object. -/
structure MediaExtra where
  metadata : Option MediaMetadata
deriving DecidableEq

/-- The all-absent metadata produced by the dict-valued `or` fallbacks. -/
def MediaMetadata.empty : MediaMetadata :=
  ⟨none, none, none, none, none, none, none, none⟩

/-- Python `a or b` on string-or-`None` values: returns `b` whenever `a` is
falsy (`None` or `""`). -/
def pyOrStr (a b : Option String) : Option String :=
  match a with
  | none => b
  | some s => if s ≠ "" then some s else b

/-- Expression `images[0].get("url") if images and isinstance(images, list) and
images[0].get("url") else metadata.get("imageUrl")` (lines 318–320). -/
def selectImageUrl (metadata : MediaMetadata) : Option String :=
  match metadata.images with
  | some (img :: _) =>
    match img.url with
    | some u => if u ≠ "" then some u else metadata.imageUrl
    | none => metadata.imageUrl
  | _ => metadata.imageUrl

/-- The external collaborators used by `async_play_media`:
`media_source.is_media_source_id`, `media_source.async_resolve_media`
(yielding the resolved URL) and `async_process_play_media_url`. -/
structure Host where
  is_media_source_id : String → Bool
  resolve_media_url : String → String
  process_play_media_url : String → String

/-- A concrete host whose resolvers are the identity (for evaluation). -/
def hostId : Host := ⟨fun _ => false, id, id⟩

/-- Method `async_play_media` (lines 288–331): rejects media types outside the
accepted prefixes before any effect; otherwise resolves the media id,
stores it, applies the metadata fallbacks, sets `_available`/`_state`
optimistically and publishes one `"playmedia"` command with the info
object. -/
def async_play_media (host : Host) (media_type media_id : String)
    (kwargs : Option MediaExtra) (d : DeviceState) : OpResult :=
  if !startswith media_type "music" && !startswith media_type "audio/"
      && !startswith media_type "provider" then
    ⟨d, [], 0, false⟩
  else
    let mid := if host.is_media_source_id media_id then
                 host.resolve_media_url media_id
               else media_id
    let d := { d with _media_id := host.process_play_media_url mid }
    let metadata :=
      match kwargs with
      | none => MediaMetadata.empty
      | some extra =>
        match extra.metadata with
        | none => MediaMetadata.empty
        | some m => m
    let d := { d with
      _attr_media_title := pyOrStr metadata.title (some "Home Assistant")
      _attr_media_artist := metadata.artist
      _attr_media_album_name := pyOrStr metadata.album_name metadata.albumtitle
      _attr_media_album_artist := pyOrStr metadata.album_artist metadata.albumartist
      _attr_media_image_url := selectImageUrl metadata
      _available := true
      _state := some MediaPlayerState.playing.val }
    ⟨d, [send_command "playmedia" (some (CmdData.str d._media_id))
          (some ⟨d._attr_media_title, d._attr_media_artist, d._attr_media_album_name,
                 d._attr_media_album_artist, d._attr_media_image_url⟩)], 0, false⟩

/-- One inbound message or dispatched intent against the mirror. -/
inductive Event where
  | snapshot (msg : Option Payload) (nowUtc nowTime : ℚ)
  | turn_off
  | media_seek (position nowUtc : ℚ)
  | set_volume_level (volume : ℚ)
  | volume_up
  | volume_down
  | mute_volume (mute : Bool)
  | media_play
  | media_pause
  | media_stop
  | media_next_track
  | media_previous_track
  | play_media (media_type media_id : String) (kwargs : Option MediaExtra)

/-- Dispatch of one event to the handler or command method it denotes. -/
def step (host : Host) (d : DeviceState) : Event → OpResult
  | .snapshot msg nowUtc nowTime => updated msg nowUtc nowTime d
  | .turn_off => async_turn_off d
  | .media_seek position nowUtc => async_media_seek position nowUtc d
  | .set_volume_level volume => async_set_volume_level volume d
  | .volume_up => async_volume_up d
  | .volume_down => async_volume_down d
  | .mute_volume mute => async_mute_volume mute d
  | .media_play => async_media_play d
  | .media_pause => async_media_pause d
  | .media_stop => async_media_stop d
  | .media_next_track => async_media_next_track d
  | .media_previous_track => async_media_previous_track d
  | .play_media media_type media_id kwargs => async_play_media host media_type media_id kwargs d

/-- The mirror after a sequence of events. -/
def run (host : Host) (d : DeviceState) : List Event → DeviceState
  | [] => d
  | e :: es => run host (step host d e).mirror es

/-! ### Helper lemmas -/

theorem pyRound_lt_five (q : ℚ) : pyRound q < 5 ↔ q ≤ 9/2 := by
  have h1 : ((⌊q⌋ : ℤ) : ℚ) ≤ q := Int.floor_le q
  have h2 : q < (⌊q⌋ : ℤ) + 1 := Int.lt_floor_add_one q
  unfold pyRound
  split_ifs with ha hb hc
  · constructor
    · intro h
      have h4 : (⌊q⌋ : ℤ) ≤ 4 := by omega
      have h4q : ((⌊q⌋ : ℤ) : ℚ) ≤ 4 := by exact_mod_cast h4
      linarith
    · intro h
      have h5 : q < ((5 : ℤ) : ℚ) := by push_cast; linarith
      exact Int.floor_lt.mpr h5
  · constructor
    · intro h
      have h3 : (⌊q⌋ : ℤ) ≤ 3 := by omega
      have h3q : ((⌊q⌋ : ℤ) : ℚ) ≤ 3 := by exact_mod_cast h3
      linarith
    · intro h
      have h4q : ((⌊q⌋ : ℤ) : ℚ) < 4 := by linarith
      have h4 : (⌊q⌋ : ℤ) < 4 := by exact_mod_cast h4q
      omega
  · have hr : q - ⌊q⌋ = 1/2 := le_antisymm (not_lt.mp hb) (not_lt.mp ha)
    constructor
    · intro h
      have h4 : (⌊q⌋ : ℤ) ≤ 4 := by omega
      have h4q : ((⌊q⌋ : ℤ) : ℚ) ≤ 4 := by exact_mod_cast h4
      linarith
    · intro h
      have h4q : ((⌊q⌋ : ℤ) : ℚ) ≤ 4 := by linarith
      have h4 : (⌊q⌋ : ℤ) ≤ 4 := by exact_mod_cast h4q
      omega
  · have hr : q - ⌊q⌋ = 1/2 := le_antisymm (not_lt.mp hb) (not_lt.mp ha)
    constructor
    · intro h
      have h3 : (⌊q⌋ : ℤ) ≤ 3 := by omega
      have h3q : ((⌊q⌋ : ℤ) : ℚ) ≤ 3 := by exact_mod_cast h3
      linarith
    · intro h
      have h4q : ((⌊q⌋ : ℤ) : ℚ) ≤ 4 := by linarith
      have h4 : (⌊q⌋ : ℤ) ≤ 4 := by exact_mod_cast h4q
      omega


theorem updated_hook (msg : Option Payload) (utc t : ℚ) (d : DeviceState) :
    ((updated msg utc t d).raised = false → (updated msg utc t d).haWrites = 1) ∧
    ((updated msg utc t d).raised = true → (updated msg utc t d).haWrites = 0) := by
  simp only [updated, updatedTail]
  repeat' (first | split | split_ifs)
  all_goals simp

theorem updated_state_isSome (msg : Option Payload) (utc t : ℚ) (d : DeviceState)
    (h : d._state.isSome = true) : ((updated msg utc t d).mirror)._state.isSome = true := by
  simp only [updated, updatedTail]
  repeat' (first | split | split_ifs)
  all_goals simp_all

theorem updated_volume_shape (msg : Option Payload) (utc t : ℚ) (d : DeviceState) :
    (updated msg utc t d).mirror._volume_level = d._volume_level ∨
    ∃ p v, msg = some p ∧ p.volume = some v ∧
      (updated msg utc t d).mirror._volume_level = v := by
  simp only [updated, updatedTail]
  repeat' (first | split | split_ifs)
  all_goals first
    | (left; rfl)
    | (right; exact ⟨_, _, rfl, by assumption, rfl⟩)

/-! ### C1: malformed inbound state messages -/

/-- A state message carrying `state` and `volume` but no `muted` key. -/
def malformedSnapshot : Payload :=
  ⟨some "playing", some 50, none, none, none, none, none, none, none⟩

/-- C1 counterexample: on a payload with `state` and `volume` present but
`muted` missing, `updated` raises a `KeyError` *and* has already applied
the new volume, so the mirror does not remain at its prior state. -/
theorem C1_counterexample :
    (updated (some malformedSnapshot) 1 1 init).raised = true ∧
    (updated (some malformedSnapshot) 1 1 init).mirror._volume_level = 50 ∧
    init._volume_level = 0 :=
  ⟨rfl, rfl, rfl⟩

/-- C1 (amended): a message that is unparseable JSON, or whose payload
lacks the first required field `state`, leaves every field of the mirror
unchanged — but the handler raises rather than logging; and when `state`
and `volume` are present but `muted` is missing, the handler raises after
the fields read before the failure were already applied (partial
application). -/
theorem C1_amended_malformed_message (utc t : ℚ) (d : DeviceState) (p : Payload) :
    ((updated none utc t d).mirror = d ∧ (updated none utc t d).raised = true ∧
      (updated none utc t d).haWrites = 0) ∧
    (p.state = none →
      (updated (some p) utc t d).mirror = d ∧ (updated (some p) utc t d).raised = true ∧
      (updated (some p) utc t d).haWrites = 0) ∧
    (∀ st v, p.state = some st → p.volume = some v → p.muted = none →
      (updated (some p) utc t d).mirror =
        { d with _state := some (lower st), _volume_level := v } ∧
      (updated (some p) utc t d).raised = true) := by
  refine ⟨⟨rfl, rfl, rfl⟩, ?_, ?_⟩
  · intro h
    simp [updated, h]
  · intro st v h1 h2 h3
    simp [updated, h1, h2, h3]

/-- C1 witness: the amended theorem applied to the concrete malformed
payload missing only `muted`. -/
theorem C1_witness :
    malformedSnapshot.state = some "playing" ∧ malformedSnapshot.volume = some 50 ∧
    malformedSnapshot.muted = none ∧
    (updated (some malformedSnapshot) 2 3 init).mirror =
      { init with _state := some (lower "playing"), _volume_level := 50 } ∧
    (updated (some malformedSnapshot) 2 3 init).raised = true :=
  ⟨rfl, rfl, rfl,
   ((C1_amended_malformed_message 2 3 init malformedSnapshot).2.2 "playing" 50 rfl rfl rfl).1,
   ((C1_amended_malformed_message 2 3 init malformedSnapshot).2.2 "playing" 50 rfl rfl rfl).2⟩

/-! ### C2: the availability window -/

/-- C2 counterexample: `4.6` seconds after the last update — strictly less
than `5` — the device already reports unavailable, because the property
rounds the difference before comparing. -/
theorem C2_counterexample :
    (23/5 : ℚ) - init._last_updated < 5 ∧ available (23/5) init = false := by
  have h0 : init._last_updated = 0 := rfl
  constructor
  · rw [h0]
    norm_num
  · rw [available, h0, decide_eq_false_iff_not]
    unfold pyRound
    norm_num

/-- C2 (amended): the device is available iff the rounded difference
`round(now - lastUpdated)` is below `5`, i.e. iff `now - lastUpdated` is
at most `4.5` seconds (round-half-to-even makes the `4.5` boundary
available). -/
theorem C2_amended_available_iff (now : ℚ) (d : DeviceState) :
    available now d = true ↔ now - d._last_updated ≤ 9/2 := by
  rw [available, decide_eq_true_eq]
  exact pyRound_lt_five _

/-! ### C3: the Off play state -/

theorem state_ne_off_of_isSome (d : DeviceState) (h : d._state.isSome = true) :
    state d ≠ MediaPlayerState.off := by
  rcases hd : d._state with _ | s
  · rw [hd] at h
    simp at h
  · simp only [state, hd]
    split_ifs <;> simp

theorem step_state_isSome (host : Host) (d : DeviceState) (e : Event)
    (h : d._state.isSome = true) : ((step host d e).mirror)._state.isSome = true := by
  cases e
  case snapshot msg u t => exact updated_state_isSome msg u t d h
  case play_media mt mid kw =>
    simp only [step]
    unfold async_play_media
    split
    · exact h
    · simp
  all_goals simp_all [step, async_turn_off, async_media_seek, async_set_volume_level,
    async_volume_up, async_volume_down, async_mute_volume, async_media_play,
    async_media_pause, async_media_stop, async_media_next_track,
    async_media_previous_track]

theorem run_state_isSome (host : Host) (events : List Event) :
    ∀ d : DeviceState, d._state.isSome = true →
      ((run host d events))._state.isSome = true := by
  induction events with
  | nil => intro d h; exact h
  | cons e es ih => intro d h; exact ih _ (step_state_isSome host d e h)

/-- The snapshot of C3's counterexample: a complete, well-typed payload
whose raw state string is `"off"`. -/
def offSnapshot : Payload :=
  mkPayload "off" 10 false (some "T") (some "A") (some "B") (some "C") 100 3

/-- C3 counterexample: applying a snapshot with state `"off"` does *not*
yield play state Off — the `state` property has no `"off"` branch, so the
unmatched string falls through to the Idle fallback. -/
theorem C3_counterexample :
    state ((updated (some offSnapshot) 1 1 init).mirror) ≠ MediaPlayerState.off ∧
    state ((updated (some offSnapshot) 1 1 init).mirror) = MediaPlayerState.idle := by
  constructor
  · intro h
    exact absurd h (by decide)
  · decide

/-- C3 (amended): the play state Off is never reported: the Off branch
requires an internal raw state of `None`, which neither initialization
(`""`), nor any snapshot (always a lowered string), nor any command
(enum string values) ever produces; a snapshot whose state string lowers
to `"off"` yields external play state Idle via the fallback. -/
theorem C3_amended_off_unreachable (host : Host) (events : List Event)
    (st : String) (v : ℤ) (m : Bool) (ti ar abt aba : Option String)
    (du cp utc t : ℚ) (d : DeviceState) (hoff : lower st = "off") :
    state (run host init events) ≠ MediaPlayerState.off ∧
    state ((updated (some (mkPayload st v m ti ar abt aba du cp)) utc t d).mirror) =
      MediaPlayerState.idle := by
  constructor
  · exact state_ne_off_of_isSome _ (run_state_isSome host events init rfl)
  · simp [updated, mkPayload, hoff, state]

/-- C3 witness: the amended theorem at the concrete `"off"` snapshot and
the empty trace. -/
theorem C3_witness :
    lower "off" = "off" ∧
    state (run hostId init []) ≠ MediaPlayerState.off ∧
    state ((updated (some (mkPayload "off" 10 false (some "T") (some "A") (some "B")
      (some "C") 100 3)) 1 1 init).mirror) = MediaPlayerState.idle :=
  ⟨by decide,
   (C3_amended_off_unreachable hostId [] "off" 10 false (some "T") (some "A") (some "B")
     (some "C") 100 3 1 1 init (by decide)).1,
   (C3_amended_off_unreachable hostId [] "off" 10 false (some "T") (some "A") (some "B")
     (some "C") 100 3 1 1 init (by decide)).2⟩

/-! ### C4: the change-notification hook -/

/-- C4 counterexample: the optimistic `play` command mutation invokes the
change-notification hook zero times, not once. -/
theorem C4_counterexample :
    (async_media_play init).haWrites = 0 ∧ ¬ (async_media_play init).haWrites = 1 :=
  ⟨rfl, by decide⟩

/-- C4 (amended): the change-notification hook is invoked exactly once per
successfully applied inbound snapshot and zero times when the snapshot
application raises; the optimistic command mutations themselves never
invoke the hook (state propagation after commands is left to the host
platform). -/
theorem C4_amended_hook_once_per_snapshot (host : Host) (msg : Option Payload)
    (utc t pos vol : ℚ) (mt mid : String) (kw : Option MediaExtra) (mu : Bool)
    (d : DeviceState) :
    ((updated msg utc t d).raised = false → (updated msg utc t d).haWrites = 1) ∧
    ((updated msg utc t d).raised = true → (updated msg utc t d).haWrites = 0) ∧
    (async_media_play d).haWrites = 0 ∧
    (async_media_pause d).haWrites = 0 ∧
    (async_media_stop d).haWrites = 0 ∧
    (async_turn_off d).haWrites = 0 ∧
    (async_media_seek pos utc d).haWrites = 0 ∧
    (async_set_volume_level vol d).haWrites = 0 ∧
    (async_volume_up d).haWrites = 0 ∧
    (async_volume_down d).haWrites = 0 ∧
    (async_mute_volume mu d).haWrites = 0 ∧
    (async_media_next_track d).haWrites = 0 ∧
    (async_media_previous_track d).haWrites = 0 ∧
    (async_play_media host mt mid kw d).haWrites = 0 := by
  refine ⟨(updated_hook msg utc t d).1, (updated_hook msg utc t d).2,
    rfl, rfl, rfl, rfl, rfl, rfl, rfl, rfl, rfl, rfl, rfl, ?_⟩
  unfold async_play_media
  split
  · rfl
  · rfl

/-- The complete well-formed snapshot used by several witnesses. -/
def validSnapshot : Payload :=
  mkPayload "playing" 50 false (some "Song") (some "Artist") (some "Album")
    (some "AlbumArtist") 180 42

/-- C4 witness: applying the valid snapshot at the initial mirror succeeds
and invokes the hook exactly once, and the `play` command invokes it zero
times. -/
theorem C4_witness :
    (updated (some validSnapshot) 1 1 init).raised = false ∧
    (updated (some validSnapshot) 1 1 init).haWrites = 1 ∧
    (async_media_play init).haWrites = 0 :=
  ⟨rfl,
   (C4_amended_hook_once_per_snapshot hostId (some validSnapshot) 1 1 0 0 "music" "x"
     none false init).1 rfl,
   (C4_amended_hook_once_per_snapshot hostId (some validSnapshot) 1 1 0 0 "music" "x"
     none false init).2.2.1⟩

/-! ### C5: track identity as a unit, position unconditional -/

/-- C5: for every complete snapshot whose lowered state string is not
`"off"`, the application succeeds; the four track-identity fields are
replaced together, with the payload's values, exactly when the payload's
`title` is truthy (non-null, non-empty), and are all left unchanged
otherwise; `duration`, `currentposition` and the wall-clock position
timestamp are updated unconditionally, as is everything `volume`/`muted`/
availability-related. -/
theorem C5_track_identity_unit (st : String) (v : ℤ) (m : Bool)
    (ti ar abt aba : Option String) (du cp utc t : ℚ) (d : DeviceState)
    (hoff : lower st ≠ "off") :
    (pyTruthyStr ti = true →
      updated (some (mkPayload st v m ti ar abt aba du cp)) utc t d =
        ⟨{ d with _state := some (lower st), _volume_level := v, _muted := m,
                  _available := true,
                  _attr_media_title := ti, _attr_media_artist := ar,
                  _attr_media_album_name := abt, _attr_media_album_artist := aba,
                  _attr_media_duration := some du, _attr_media_position := some cp,
                  _attr_media_position_updated_at := some utc,
                  _last_updated := t }, [], 1, false⟩) ∧
    (pyTruthyStr ti = false →
      updated (some (mkPayload st v m ti ar abt aba du cp)) utc t d =
        ⟨{ d with _state := some (lower st), _volume_level := v, _muted := m,
                  _available := true,
                  _attr_media_duration := some du, _attr_media_position := some cp,
                  _attr_media_position_updated_at := some utc,
                  _last_updated := t }, [], 1, false⟩) := by
  constructor
  · intro ht
    simp [updated, updatedTail, mkPayload, hoff, ht]
  · intro ht
    simp [updated, updatedTail, mkPayload, hoff, ht]

/-- C5 witness: the theorem at a concrete playing snapshot, once with a
truthy title and once with a `null` title. -/
theorem C5_witness :
    lower "playing" ≠ "off" ∧ pyTruthyStr (some "Song") = true ∧
    pyTruthyStr none = false ∧
    updated (some (mkPayload "playing" 50 false (some "Song") (some "Artist")
        (some "Album") (some "AlbumArtist") 180 42)) 7 8 init =
      ⟨{ init with _state := some (lower "playing"), _volume_level := 50,
                   _muted := false, _available := true,
                   _attr_media_title := some "Song",
                   _attr_media_artist := some "Artist",
                   _attr_media_album_name := some "Album",
                   _attr_media_album_artist := some "AlbumArtist",
                   _attr_media_duration := some 180,
                   _attr_media_position := some 42,
                   _attr_media_position_updated_at := some 7,
                   _last_updated := 8 }, [], 1, false⟩ ∧
    updated (some (mkPayload "playing" 50 false none (some "Artist")
        (some "Album") (some "AlbumArtist") 180 42)) 7 8 init =
      ⟨{ init with _state := some (lower "playing"), _volume_level := 50,
                   _muted := false, _available := true,
                   _attr_media_duration := some 180,
                   _attr_media_position := some 42,
                   _attr_media_position_updated_at := some 7,
                   _last_updated := 8 }, [], 1, false⟩ :=
  ⟨by decide, by decide, by decide,
   (C5_track_identity_unit "playing" 50 false (some "Song") (some "Artist")
     (some "Album") (some "AlbumArtist") 180 42 7 8 init (by decide)).1 (by decide),
   (C5_track_identity_unit "playing" 50 false none (some "Artist")
     (some "Album") (some "AlbumArtist") 180 42 7 8 init (by decide)).2 (by decide)⟩

/-! ### C6: Off snapshots freeze track and position -/

/-- C6: for every complete snapshot whose state string lowers to `"off"`,
the application leaves every track-identity and position field (title,
artist, album name, album artist, duration, position, position timestamp)
exactly at its prior value while still updating the raw state, volume,
muted, availability and `lastUpdated`. -/
theorem C6_off_freezes_track (st : String) (v : ℤ) (m : Bool)
    (ti ar abt aba : Option String) (du cp utc t : ℚ) (d : DeviceState)
    (hoff : lower st = "off") :
    updated (some (mkPayload st v m ti ar abt aba du cp)) utc t d =
      ⟨{ d with _state := some (lower st), _volume_level := v, _muted := m,
                _available := true, _last_updated := t }, [], 1, false⟩ := by
  simp [updated, mkPayload, hoff]

/-- C6 witness: the theorem at a concrete `"off"` snapshot over a mirror
with a previously known track. -/
theorem C6_witness :
    lower "off" = "off" ∧
    updated (some (mkPayload "off" 20 true (some "New") (some "New") (some "New")
        (some "New") 1 2)) 9 11
      { init with _attr_media_title := some "Old", _attr_media_artist := some "OldA",
                  _attr_media_album_name := some "OldAl",
                  _attr_media_album_artist := some "OldAA",
                  _attr_media_duration := some 100, _attr_media_position := some 5,
                  _attr_media_position_updated_at := some 3 } =
      ⟨{ init with _attr_media_title := some "Old", _attr_media_artist := some "OldA",
                   _attr_media_album_name := some "OldAl",
                   _attr_media_album_artist := some "OldAA",
                   _attr_media_duration := some 100, _attr_media_position := some 5,
                   _attr_media_position_updated_at := some 3,
                   _state := some (lower "off"), _volume_level := 20, _muted := true,
                   _available := true, _last_updated := 11 }, [], 1, false⟩ :=
  ⟨by decide,
   C6_off_freezes_track "off" 20 true (some "New") (some "New") (some "New")
     (some "New") 1 2 9 11
     { init with _attr_media_title := some "Old", _attr_media_artist := some "OldA",
                 _attr_media_album_name := some "OldAl",
                 _attr_media_album_artist := some "OldAA",
                 _attr_media_duration := some 100, _attr_media_position := some 5,
                 _attr_media_position_updated_at := some 3 } (by decide)⟩

/-! ### C7: the volume range invariant -/

/-- An event whose snapshot volume (when present) lies in the wire range
`[0, 100]`. -/
def Event.volumeOk : Event → Prop
  | .snapshot (some p) _ _ =>
    match p.volume with
    | some v => 0 ≤ v ∧ v ≤ 100
    | none => True
  | _ => True

theorem step_volume (host : Host) (d : DeviceState) (e : Event)
    (hok : Event.volumeOk e) (h0 : 0 ≤ d._volume_level) (h1 : d._volume_level ≤ 100) :
    0 ≤ (step host d e).mirror._volume_level ∧
    (step host d e).mirror._volume_level ≤ 100 := by
  cases e
  case snapshot msg u t =>
    rcases updated_volume_shape msg u t d with h | ⟨p, v, hmsg, hv, hval⟩
    · simp only [step]
      rw [h]
      exact ⟨h0, h1⟩
    · simp only [step]
      rw [hval]
      subst hmsg
      simpa [Event.volumeOk, hv] using hok
  case play_media mt mid kw =>
    simp only [step]
    unfold async_play_media
    split
    · exact ⟨h0, h1⟩
    · exact ⟨h0, h1⟩
  all_goals exact ⟨h0, h1⟩

theorem run_volume (host : Host) (events : List Event) :
    ∀ d : DeviceState, (∀ e ∈ events, Event.volumeOk e) →
      0 ≤ d._volume_level → d._volume_level ≤ 100 →
      0 ≤ (run host d events)._volume_level ∧ (run host d events)._volume_level ≤ 100 := by
  induction events with
  | nil => intro d _ h0 h1; exact ⟨h0, h1⟩
  | cons e es ih =>
    intro d hok h0 h1
    have hs := step_volume host d e (hok e (List.mem_cons_self e es)) h0 h1
    exact ih _ (fun x hx => hok x (List.mem_cons_of_mem e hx)) hs.1 hs.2

/-- The snapshot of C7's counterexample: well-formed but with volume 150. -/
def overVolumeSnapshot : Payload :=
  mkPayload "playing" 150 false (some "T") (some "A") (some "B") (some "C") 10 3

/-- C7 counterexample: a snapshot carrying volume `150` is applied
unclamped, so the state reached from `init` by this one message stores a
volume outside `[0, 100]` and reports a level above `1`. -/
theorem C7_counterexample :
    (run hostId init [Event.snapshot (some overVolumeSnapshot) 1 1])._volume_level = 150 ∧
    ¬ (run hostId init
        [Event.snapshot (some overVolumeSnapshot) 1 1])._volume_level ≤ 100 := by
  have h : (run hostId init
      [Event.snapshot (some overVolumeSnapshot) 1 1])._volume_level = 150 := rfl
  refine ⟨h, ?_⟩
  rw [h]
  decide

/-- C7 (amended): provided every snapshot in the trace carries a volume in
the wire range `[0, 100]` (the code itself never clamps), every reachable
mirror state stores a volume in `[0, 100]`, and the reported level is the
stored volume divided by 100, lying in `[0, 1]`; no command mutates the
stored volume. -/
theorem C7_amended_volume_invariant (host : Host) (events : List Event)
    (hok : ∀ e ∈ events, Event.volumeOk e) :
    0 ≤ (run host init events)._volume_level ∧
    (run host init events)._volume_level ≤ 100 ∧
    volume_level (run host init events) = ((run host init events)._volume_level : ℚ) / 100 ∧
    0 ≤ volume_level (run host init events) ∧
    volume_level (run host init events) ≤ 1 := by
  obtain ⟨h0, h1⟩ := run_volume host events init hok (by decide) (by decide)
  refine ⟨h0, h1, rfl, ?_, ?_⟩
  · exact div_nonneg (by exact_mod_cast h0) (by norm_num)
  · rw [volume_level, div_le_one (by norm_num)]
    exact_mod_cast h1

/-- The trace of C7's witness: one valid snapshot, one volume-less command. -/
def demoTrace : List Event :=
  [Event.snapshot (some validSnapshot) 1 1, Event.media_play]

/-- C7 witness: the amended theorem at the concrete two-event trace. -/
theorem C7_witness :
    (∀ e ∈ demoTrace, Event.volumeOk e) ∧
    0 ≤ (run hostId init demoTrace)._volume_level ∧
    (run hostId init demoTrace)._volume_level ≤ 100 := by
  have hok : ∀ e ∈ demoTrace, Event.volumeOk e := by
    intro e he
    fin_cases he <;> simp [Event.volumeOk, validSnapshot, mkPayload]
  exact ⟨hok, (C7_amended_volume_invariant hostId demoTrace hok).1,
    (C7_amended_volume_invariant hostId demoTrace hok).2.1⟩

/-! ### C8: stop, turnOff and pause all dispatch the wire command "pause" -/

/-- C8: `stop`, `turnOff` and `pause` each publish exactly one command
message whose `command` field is the identical wire string `"pause"`
(with no data and no info); as optimistic local effects, `turnOff` and
`stop` set the externally visible play state to Idle and `pause` sets it
to Paused. -/
theorem C8_pause_wire_command (d : DeviceState) :
    (async_media_stop d).published = [send_command "pause" none none] ∧
    state (async_media_stop d).mirror = MediaPlayerState.idle ∧
    (async_turn_off d).published = [send_command "pause" none none] ∧
    state (async_turn_off d).mirror = MediaPlayerState.idle ∧
    (async_media_pause d).published = [send_command "pause" none none] ∧
    state (async_media_pause d).mirror = MediaPlayerState.paused ∧
    (send_command "pause" none none).command = "pause" := by
  refine ⟨rfl, ?_, rfl, ?_, rfl, ?_, rfl⟩ <;>
    simp [state, async_media_stop, async_turn_off, async_media_pause,
      MediaPlayerState.val]

/-! ### C9: playMedia rejects unsupported media types before any effect -/

/-- C9: a `play_media` call whose media type starts with none of `"music"`,
`"audio/"`, `"provider"` aborts before any effect: the mirror is unchanged,
nothing is published, the hook is not invoked and no exception escapes. -/
theorem C9_play_media_rejects (host : Host) (media_type media_id : String)
    (kwargs : Option MediaExtra) (d : DeviceState)
    (h1 : startswith media_type "music" = false)
    (h2 : startswith media_type "audio/" = false)
    (h3 : startswith media_type "provider" = false) :
    (async_play_media host media_type media_id kwargs d).mirror = d ∧
    (async_play_media host media_type media_id kwargs d).published = [] ∧
    (async_play_media host media_type media_id kwargs d).haWrites = 0 ∧
    (async_play_media host media_type media_id kwargs d).raised = false := by
  unfold async_play_media
  rw [h1, h2, h3]
  exact ⟨rfl, rfl, rfl, rfl⟩

/-- C9 witness: the theorem at the spec's own example `"video/mp4"`. -/
theorem C9_witness :
    startswith "video/mp4" "music" = false ∧
    startswith "video/mp4" "audio/" = false ∧
    startswith "video/mp4" "provider" = false ∧
    (async_play_media hostId "video/mp4" "id123" none init).mirror = init ∧
    (async_play_media hostId "video/mp4" "id123" none init).published = [] :=
  ⟨by decide, by decide, by decide,
   (C9_play_media_rejects hostId "video/mp4" "id123" none init (by decide) (by decide)
     (by decide)).1,
   (C9_play_media_rejects hostId "video/mp4" "id123" none init (by decide) (by decide)
     (by decide)).2.1⟩

/-! ### C10: idempotence of snapshot application -/

/-- C10: applying the same complete snapshot twice in succession yields a
mirror equal to applying it once in every field except `_last_updated`
and `_attr_media_position_updated_at`, which carry the wall-clock times
of the second application: patching those two fields of the twice-applied
mirror back to the once-applied values gives exactly the once-applied
mirror; and the first application never raises. -/
theorem C10_idempotent (st : String) (v : ℤ) (m : Bool)
    (ti ar abt aba : Option String) (du cp u1 t1 u2 t2 : ℚ) (d : DeviceState) :
    (updated (some (mkPayload st v m ti ar abt aba du cp)) u1 t1 d).raised = false ∧
    { (updated (some (mkPayload st v m ti ar abt aba du cp)) u2 t2
        (updated (some (mkPayload st v m ti ar abt aba du cp)) u1 t1 d).mirror).mirror with
      _last_updated :=
        (updated (some (mkPayload st v m ti ar abt aba du cp)) u1 t1 d).mirror._last_updated,
      _attr_media_position_updated_at :=
        (updated (some (mkPayload st v m ti ar abt aba du cp))
          u1 t1 d).mirror._attr_media_position_updated_at } =
      (updated (some (mkPayload st v m ti ar abt aba du cp)) u1 t1 d).mirror := by
  by_cases hoff : lower st = "off"
  · simp [updated, mkPayload, hoff]
  · by_cases ht : pyTruthyStr ti = true
    · simp [updated, updatedTail, mkPayload, hoff, ht]
    · rw [Bool.not_eq_true] at ht
      simp [updated, updatedTail, mkPayload, hoff, ht]
